import Mathlib

/-!
Shallow embedding of the async-value bridge and dynamic type dispatcher of
oasis-jsbridge-android, from the two source files
`jni/java-types/Object.cpp` and `jni/java-types/Deferred_quickjs.cpp`.

Modelling conventions:
* QuickJS `JSValue`s are modelled by the inductive `JSVal`; objects carry an
  own-property association list, functions are opaque ids, and the tags QuickJS
  leaves unhandled in these files (symbols, bigints) are explicit constructors.
* JNI calls into the Kotlin side (`createCompletableDeferred`,
  `resolveDeferred`, `rejectDeferred`, `setUpJsPromise`) are external
  collaborators; whether each leaves a pending JNI exception is an oracle
  (`JniOracle`), so every `hasPendingJniException` branch of the source
  stays live in the model.
* Side effects are made observable as explicit event lists (`DEvent`,
  `CompleteEvent`) or as explicit state (`EngineState`), so that theorems
  about "completes exactly once", "registers no callbacks", "registry
  unchanged" are statements about data.
* The static counter `promiseCount` is a C `int`; its increment is modelled
  as a wrapping 32-bit update (`(c + 1) % 2^32` on the raw bit pattern).
-/

namespace OasisJsBridge

/-- QuickJS value, as discriminated by the `JS_Is*` tests used in the source.
`object` holds the own properties; `function` is callable (QuickJS gives
functions the object tag, so `JS_IsObject` is true for them); `symbol` and
`bigint` are the tags that fall outside every test in `Object::toJava`. -/
inductive JSVal where
  | undefined
  | null
  | bool (b : Bool)
  | number (q : ℚ)
  | string (s : String)
  | object (fields : List (String × JSVal))
  | function (fid : Nat)
  | symbol (sid : Nat)
  | bigint (i : Int)

/-- `JS_IsObject`: true for plain objects and functions (QuickJS object tag). -/
def JSVal.isObject : JSVal → Bool
  | .object _ => true
  | .function _ => true
  | _ => false

/-- `JS_IsFunction`. -/
def JSVal.isFunction : JSVal → Bool
  | .function _ => true
  | _ => false

/-- `JS_GetPropertyStr`: own-property lookup, `undefined` when absent or when
the receiver is not a plain object. -/
def JSVal.getProp (v : JSVal) (k : String) : JSVal :=
  match v with
  | .object fields => ((fields.find? fun p => p.1 == k).map Prod.snd).getD .undefined
  | _ => .undefined

/-- `QuickJsUtils::hasPropertyStr`: own-property existence test. -/
def JSVal.hasProp (v : JSVal) (k : String) : Bool :=
  match v with
  | .object fields => (fields.find? fun p => p.1 == k).isSome
  | _ => false

namespace JavaTypes

/-- The concrete converters `Object::newJavaType` and `Object::toJava` can
select (each constructor names the `JavaType` subclass instantiated by the
source, with `boxed*` standing for `BoxedPrimitive` around the primitive). -/
inductive ConverterKind where
  | boxedBoolean
  | boxedInteger
  | boxedLong
  | boxedFloat
  | boxedDouble
  | string
  | jsonObjectWrapper
  | deferred
  deriving DecidableEq, Repr

/-- The members of the `JavaTypeId` enumeration referenced by the two source
files (the header `JavaTypeId.h` is an external collaborator; these
constructors are the ones the sources mention, plus the catch-all
`Unknown` returned by `getJavaTypeIdByJavaName` for unrecognised names). -/
inductive JavaTypeId where
  | Boolean
  | BoxedBoolean
  | Int
  | BoxedInt
  | Long
  | BoxedLong
  | Float
  | BoxedFloat
  | Double
  | BoxedDouble
  | String
  | JsonObjectWrapper
  | Deferred
  | Object
  | Unknown
  deriving DecidableEq, Repr

/-- `Object::newJavaType` (Object.cpp lines 165-194): the `switch` on the
`JavaTypeId` obtained from the value's runtime class name. `none` models the
`default: return nullptr;` branch. The reflection steps obtaining the id from
the class name are the external `getJavaTypeIdByJavaName`. -/
def Object.newJavaType : JavaTypeId → Option ConverterKind
  | .Boolean => some .boxedBoolean
  | .BoxedBoolean => some .boxedBoolean
  | .Int => some .boxedInteger
  | .BoxedInt => some .boxedInteger
  | .Long => some .boxedLong
  | .BoxedLong => some .boxedLong
  | .Float => some .boxedFloat
  | .BoxedFloat => some .boxedFloat
  | .Double => some .boxedDouble
  | .BoxedDouble => some .boxedDouble
  | .String => some .string
  | .JsonObjectWrapper => some .jsonObjectWrapper
  | _ => none

/-- The classification table as the specification words it (§4.1): the closed
enumeration {boolean, boxed integer, boxed long, boxed float, boxed double,
string, structured-object, deferred, unknown}, in particular with a `deferred`
member. Written from the spec, to be compared with `Object.newJavaType`. -/
def Object.specClassify : JavaTypeId → Option ConverterKind
  | .Boolean => some .boxedBoolean
  | .BoxedBoolean => some .boxedBoolean
  | .Int => some .boxedInteger
  | .BoxedInt => some .boxedInteger
  | .Long => some .boxedLong
  | .BoxedLong => some .boxedLong
  | .Float => some .boxedFloat
  | .BoxedFloat => some .boxedFloat
  | .Double => some .boxedDouble
  | .BoxedDouble => some .boxedDouble
  | .String => some .string
  | .JsonObjectWrapper => some .jsonObjectWrapper
  | .Deferred => some .deferred
  | _ => none

/-- Result of `Object::toJava`: the `JValue` returned is either empty
(`JValue()`) or the value delegated to the selected concrete converter. -/
inductive OTJResult where
  | emptyJValue
  | delegated (c : ConverterKind)
  deriving DecidableEq, Repr

/-- Outcome record for `Object::toJava`: the returned `JValue` together with
the type exception reported through `throwTypeException`, if any. -/
structure OTJOutcome where
  result : OTJResult
  typeError : Option String
  deriving DecidableEq, Repr

/-- `Object::toJava` (Object.cpp lines 112-142, QUICKJS variant): classify the
JS value by the `JS_Is*` chain and delegate to the matching converter;
undefined/null give an empty `JValue`; anything else reports a TypeError and
returns an empty `JValue`. -/
def Object.toJava (v : JSVal) : OTJOutcome :=
  match v with
  | .undefined => ⟨.emptyJValue, none⟩
  | .null => ⟨.emptyJValue, none⟩
  | .bool _ => ⟨.delegated .boxedBoolean, none⟩
  | .number _ => ⟨.delegated .boxedDouble, none⟩
  | .string _ => ⟨.delegated .string, none⟩
  | .object _ => ⟨.delegated .jsonObjectWrapper, none⟩
  | .function _ => ⟨.delegated .jsonObjectWrapper, none⟩
  | _ => ⟨.emptyJValue, some "Cannot marshal return value to Java"⟩

/-- Whether a `JSVal` falls outside every `JS_Is*` test of `Object::toJava`
(the tags reaching the final TypeError branch). -/
def jsUnsupported : JSVal → Bool
  | .symbol _ => true
  | .bigint _ => true
  | _ => false

/-- Result of `Object::fromJava`: `JS_NULL` for a null host object, a JS
exception after a TypeError, or the value produced by the selected
converter's `fromJava`. -/
inductive OFJResult where
  | jsNull
  | jsException
  | delegated (c : ConverterKind)
  deriving DecidableEq, Repr

/-- Outcome record for `Object::fromJava`: result, reported type exception,
and whether runtime-type classification (`newJavaType`) was performed. -/
structure OFJOutcome where
  result : OFJResult
  typeError : Option String
  classified : Bool
  deriving DecidableEq, Repr

/-- `Object::fromJava` (Object.cpp lines 144-161, QUICKJS variant): a null
host reference becomes `JS_NULL` with no classification; otherwise the value's
runtime type id (argument `h = some id`) is classified by `newJavaType`;
`nullptr` reports a TypeError and returns `JS_EXCEPTION`. -/
def Object.fromJava (h : Option JavaTypeId) : OFJOutcome :=
  match h with
  | none => ⟨.jsNull, none, false⟩
  | some id =>
    match Object.newJavaType id with
    | none => ⟨.jsException, some "Cannot transfer Java Object to JS: unsupported Java type", true⟩
    | some c => ⟨.delegated c, none, true⟩

/-- A value on the Duktape stack, as discriminated by `duk_get_type` in the
DUKTAPE variant of `Object::pop`; `buffer`, `pointer` and `lightfunc` are the
tags reaching the `default` branch. -/
inductive DukVal where
  | null
  | undefined
  | boolean (b : Bool)
  | number (q : ℚ)
  | string (s : String)
  | object
  | buffer
  | pointer
  | lightfunc
  deriving DecidableEq, Repr

/-- `Object::pop` (Object.cpp lines 43-84, DUKTAPE variant): switch on
`duk_get_type`; null/undefined pop to an empty `JValue`, the handled tags
delegate to the matching converter, the default branch reports a TypeError. -/
def Object.pop (v : DukVal) : OTJOutcome :=
  match v with
  | .null => ⟨.emptyJValue, none⟩
  | .undefined => ⟨.emptyJValue, none⟩
  | .boolean _ => ⟨.delegated .boxedBoolean, none⟩
  | .number _ => ⟨.delegated .boxedDouble, none⟩
  | .string _ => ⟨.delegated .string, none⟩
  | .object => ⟨.delegated .jsonObjectWrapper, none⟩
  | _ => ⟨.emptyJValue, some "Cannot marshal return value to Java"⟩

/-- Oracle for the JNI calls of `Deferred::toJava`: whether each call into the
Kotlin side leaves a pending JNI exception (`hasPendingJniException`). -/
structure JniOracle where
  createDeferredFails : Bool
  resolveDeferredFails : Bool
  rejectDeferredFails : Bool
  deriving DecidableEq, Repr

/-- Observable steps of `Deferred::toJava`, in source order. `α` is the host
representation produced by the component converter. The trace contains no
registry operation: this direction of the bridge never touches the global
stash. -/
inductive DEvent (α : Type) where
  | createDeferred
  | rethrowJniException
  | resolveDeferred (x : α)
  | registerThenCallbacks
  | callThen
  | captureJsException
  | rejectDeferredWithJsError
  deriving DecidableEq, Repr

/-- The `JValue` returned by `Deferred::toJava`: empty (`JValue()`, after a
rethrown JNI exception) or the handle of the deferred created at entry. -/
inductive TJRes where
  | emptyJValue
  | deferredHandle
  deriving DecidableEq, Repr

/-- `Deferred::toJava` (Deferred_quickjs.cpp lines 106-177): create a native
`CompletableDeferred`; if the value is not an object with a `then` property,
convert it through the component converter and resolve the deferred
synchronously; otherwise register the fulfilled/rejected callback closures and
call `then` on the promise (`thenThrows` is the oracle for the promise
machinery raising inside `JS_Call`; calling a non-function `then` also yields
`JS_EXCEPTION`); if that call raised, capture the JS error as a Java exception
and reject the deferred immediately. Returns the `JValue` and the trace. -/
def Deferred.toJava {α : Type} (jni : JniOracle) (componentToJava : JSVal → α)
    (thenThrows : Bool) (v : JSVal) : TJRes × List (DEvent α) :=
  if jni.createDeferredFails then
    (.emptyJValue, [.createDeferred, .rethrowJniException])
  else
    let isPromise := v.isObject && v.hasProp "then"
    if !isPromise then
      let x := componentToJava v
      if jni.resolveDeferredFails then
        (.emptyJValue, [.createDeferred, .resolveDeferred x, .rethrowJniException])
      else
        (.deferredHandle, [.createDeferred, .resolveDeferred x])
    else
      let thenVal := v.getProp "then"
      let thenCallRaised := !thenVal.isFunction || thenThrows
      if thenCallRaised then
        if jni.rejectDeferredFails then
          (.emptyJValue,
            [.createDeferred, .registerThenCallbacks, .callThen,
              .captureJsException, .rejectDeferredWithJsError, .rethrowJniException])
        else
          (.deferredHandle,
            [.createDeferred, .registerThenCallbacks, .callThen,
              .captureJsException, .rejectDeferredWithJsError])
      else
        (.deferredHandle, [.createDeferred, .registerThenCallbacks, .callThen])

/-- The events of a `Deferred::toJava` trace that complete the deferred
(resolving it with a converted value, or rejecting it with the captured JS
error). -/
def completionEvents {α : Type} (es : List (DEvent α)) : List (DEvent α) :=
  es.filter fun e =>
    match e with
    | .resolveDeferred _ => true
    | .rejectDeferredWithJsError => true
    | _ => false

/-- "Promise-shaped" as the specification words it: the value has a callable
`then` capability. Written from the spec, to be compared with the
`JS_IsObject(v) && hasPropertyStr(v, "then")` test of the source. -/
def specHasCallableThen (v : JSVal) : Bool :=
  (v.getProp "then").isFunction

/-- The `PromiseObject` stored in the global stash by `Deferred::fromJava`:
the hidden component-type slot (a C++ pointer value; `none` models a
missing/null/non-object slot), the `resolve`/`reject` slots filled in by
`promiseFunction` when the Promise executor runs, and the settled state of
the associated JS promise (`none` while pending, `some isFulfilled` once
settled) — promise capabilities ignore invocations after settlement. -/
structure PromiseObj where
  componentType : Option Nat
  resolve : JSVal
  reject : JSVal
  settled : Option Bool

/-- The script engine state the Deferred bridge mutates: the static `int`
`promiseCount` (raw 32-bit pattern) and the global stash entries keyed by the
generated bridge id. The global property name of an entry with key `n` is
`promiseObjectGlobalName n`; decimal rendering is injective, so the stash is
keyed here by the raw id itself. -/
structure EngineState where
  promiseCount : Nat
  globals : List (Nat × PromiseObj)

/-- The global name under which `Deferred::fromJava` stashes a PromiseObject:
`PROMISE_OBJECT_GLOBAL_NAME_PREFIX + std::to_string(++promiseCount)`, where
the counter is a C `int` whose raw pattern `n` prints as its two's-complement
signed value. -/
def promiseObjectGlobalName (n : Nat) : String :=
  "__javaTypes_deferred_promiseobject_" ++
    toString (if n < 2 ^ 31 then (n : Int) else (n : Int) - 2 ^ 32)

/-- Result of `Deferred::fromJava`: `JS_NULL` for a null host deferred,
`JS_EXCEPTION` after a rethrown JNI exception, or the constructed Promise
instance (identified by its bridge id). -/
inductive FJResult where
  | jsNull
  | jsException
  | promiseInstance (id : Nat)
  deriving DecidableEq, Repr

/-- `Deferred::fromJava` (Deferred_quickjs.cpp lines 180-223): a null host
deferred returns `JS_NULL` untouched; otherwise create a PromiseObject
carrying the component type in its hidden slot, increment the static `int`
counter (32-bit wrap on the raw pattern), stash the object globally under the
new id, construct `new Promise(promiseFunction)` — whose executor runs
synchronously and stores the resolve/reject capabilities (fresh function
values) on the PromiseObject — then call `setUpJsPromise` over JNI
(`setUpFails` oracle; on failure the exception is rethrown and
`JS_EXCEPTION` returned, the state mutations remaining). -/
def Deferred.fromJava (componentTypeId : Nat) (setUpFails : Bool)
    (deferredIsNull : Bool) (s : EngineState) : FJResult × EngineState :=
  if deferredIsNull then
    (.jsNull, s)
  else
    let newCount := (s.promiseCount + 1) % 2 ^ 32
    let obj : PromiseObj :=
      { componentType := some componentTypeId
        resolve := .function 0
        reject := .function 1
        settled := none }
    let s' : EngineState :=
      { promiseCount := newCount, globals := (newCount, obj) :: s.globals }
    if setUpFails then (.jsException, s') else (.promiseInstance newCount, s')

/-- Observable steps of `Deferred::completeJsPromise`. -/
inductive CompleteEvent where
  | warnNotFound
  | warnNoComponentType
  | invokeCapability (isFulfilled : Bool)
  | logCallFailed
  | logSlotNotCallable
  deriving DecidableEq, Repr

/-- The script engine's promise resolve/reject capability (external
collaborator, ES promise semantics): settles the pending promise of the
stashed entry with the given outcome; an invocation on an already-settled
promise is ignored. -/
def invokeCapability (id : Nat) (isFulfilled : Bool) :
    List (Nat × PromiseObj) → List (Nat × PromiseObj)
  | [] => []
  | (k, o) :: rest =>
    if k = id then
      (k, if o.settled = none then { o with settled := some isFulfilled } else o) :: rest
    else
      (k, o) :: invokeCapability id isFulfilled rest

/-- `Deferred::completeJsPromise` (Deferred_quickjs.cpp lines 225-269): look
the PromiseObject up in the global stash (absent id: warn and return); read
the hidden component-type slot (missing: warn and return); pick the
`resolve` or `reject` slot (not callable: log and return); convert the value
and invoke the capability with it (`capThrows` is the oracle for `JS_Call`
returning an exception, which is logged and discarded). The stash entry is
never removed. -/
def Deferred.completeJsPromise (capThrows : Bool) (s : EngineState) (id : Nat)
    (isFulfilled : Bool) : EngineState × List CompleteEvent :=
  match (s.globals.find? fun p => p.1 == id).map Prod.snd with
  | none => (s, [.warnNotFound])
  | some obj =>
    match obj.componentType with
    | none => (s, [.warnNoComponentType])
    | some _ =>
      let slot := if isFulfilled then obj.resolve else obj.reject
      if slot.isFunction then
        ({ s with globals := invokeCapability id isFulfilled s.globals },
          .invokeCapability isFulfilled :: if capThrows then [.logCallFailed] else [])
      else
        (s, [.logSlotNotCallable])

/-- The raw bridge ids issued by `n` successive `Deferred::fromJava` calls on
non-null deferreds, starting from state `s` (each call stashes its
PromiseObject under the id it issues). -/
def idsIssued : Nat → EngineState → List Nat
  | 0, _ => []
  | n + 1, s =>
    let s' := (Deferred.fromJava 0 false false s).2
    s'.promiseCount :: idsIssued n s'

end JavaTypes

open JavaTypes

/-- If a value has a callable `then` (the spec's promise-shapedness), then it
passes the source's `JS_IsObject(v) && hasPropertyStr(v, "then")` test. -/
theorem hasCallableThen_implies_hasProp (v : JSVal)
    (h : specHasCallableThen v = true) : (v.isObject && v.hasProp "then") = true := by
  cases v with
  | object fields =>
    simp only [specHasCallableThen, JSVal.getProp] at h
    cases hf : fields.find? fun p => p.1 == "then" with
    | none => rw [hf] at h; simp [JSVal.isFunction] at h
    | some p => simp [JSVal.isObject, JSVal.hasProp, hf]
  | _ => simp [specHasCallableThen, JSVal.getProp, JSVal.isFunction] at h

/-- C1: for a value that is not promise-shaped (it fails the source's
object-with-`then`-property test) and with the JNI collaborators succeeding,
`Deferred::toJava` creates a fresh deferred and its complete effect trace is
`[createDeferred, resolveDeferred (C v)]`: the deferred is completed
synchronously and exactly once with the component conversion of `v`, no
`then` callbacks are registered, no registry operation occurs (this direction
never touches the global stash), and the deferred handle is returned. -/
theorem toJava_fast_path_completes_exactly_once {α : Type} (jni : JniOracle)
    (componentToJava : JSVal → α) (thenThrows : Bool) (v : JSVal)
    (hnp : (v.isObject && v.hasProp "then") = false)
    (hc : jni.createDeferredFails = false)
    (hr : jni.resolveDeferredFails = false) :
    Deferred.toJava jni componentToJava thenThrows v =
      (.deferredHandle, [.createDeferred, .resolveDeferred (componentToJava v)]) ∧
    completionEvents (Deferred.toJava jni componentToJava thenThrows v).2 =
      [.resolveDeferred (componentToJava v)] ∧
    DEvent.registerThenCallbacks ∉ (Deferred.toJava jni componentToJava thenThrows v).2 := by
  have h1 : Deferred.toJava jni componentToJava thenThrows v =
      (.deferredHandle, [.createDeferred, .resolveDeferred (componentToJava v)]) := by
    simp [Deferred.toJava, hc, hnp, hr]
  refine ⟨h1, ?_, ?_⟩
  · rw [h1]; rfl
  · rw [h1]; simp

/-- Witness for C1 at `v = 5` (a non-promise-shaped number), the constant
component converter `7`, and succeeding JNI calls. -/
theorem toJava_fast_path_completes_exactly_once_witness :
    Deferred.toJava ⟨false, false, false⟩ (fun _ => (7 : Nat)) false (.number 5) =
      (.deferredHandle, [.createDeferred, .resolveDeferred 7]) :=
  (toJava_fast_path_completes_exactly_once ⟨false, false, false⟩
    (fun _ => (7 : Nat)) false (.number 5) rfl rfl rfl).1

/-- C3: a script value outside every supported tag converts to an empty
`JValue` with a reported TypeError (`Object::toJava`), and a host object
whose runtime type the dispatcher cannot classify converts to `JS_EXCEPTION`
with a reported TypeError (`Object::fromJava`); both outcomes are returned
values of total functions, not crashes. -/
theorem unsupported_type_reported_type_error (v : JSVal)
    (hv : jsUnsupported v = true) (id : JavaTypeId)
    (hid : Object.newJavaType id = none) :
    Object.toJava v = ⟨.emptyJValue, some "Cannot marshal return value to Java"⟩ ∧
    Object.fromJava (some id) =
      ⟨.jsException, some "Cannot transfer Java Object to JS: unsupported Java type", true⟩ := by
  constructor
  · cases v <;> simp_all [jsUnsupported, Object.toJava]
  · simp [Object.fromJava, hid]

/-- Witness for C3 at a JS symbol and the `Unknown` runtime type id. -/
theorem unsupported_type_reported_type_error_witness :
    Object.toJava (.symbol 0) =
      ⟨.emptyJValue, some "Cannot marshal return value to Java"⟩ ∧
    Object.fromJava (some .Unknown) =
      ⟨.jsException, some "Cannot transfer Java Object to JS: unsupported Java type", true⟩ :=
  unsupported_type_reported_type_error (.symbol 0) rfl .Unknown rfl

/-- C4, counterexample: the `switch` of `Object::newJavaType` has no
`Deferred` case, so a host deferred in untyped-object position falls to the
`default: return nullptr` branch (unknown) rather than being classified as
deferred, contradicting the claim (the spec-worded table maps it to the
deferred converter). -/
theorem deferred_untyped_classified_unknown_cex :
    Object.newJavaType JavaTypeId.Deferred = none ∧
    Object.newJavaType JavaTypeId.Deferred ≠ some ConverterKind.deferred ∧
    Object.specClassify JavaTypeId.Deferred = some ConverterKind.deferred :=
  ⟨rfl, by decide, rfl⟩

/-- C4, amended: `Object::newJavaType` realises the spec's classification
table on every member except `Deferred`, which it sends to unknown
(`nullptr`) instead of the deferred converter. -/
theorem newJavaType_matches_spec_except_deferred (id : JavaTypeId) :
    Object.newJavaType id =
      if id = JavaTypeId.Deferred then none else Object.specClassify id := by
  cases id <;> rfl

/-- C6: when the value is promise-shaped (object with a `then` property) but
invoking `then` raises synchronously (`JS_Call` yields an exception, either
because the promise machinery threw or because `then` is not callable), and
the JNI collaborators succeed, `Deferred::toJava` captures the JS error as a
host exception, rejects the deferred immediately on the same call, and still
returns the deferred handle instead of propagating the exception. -/
theorem then_raises_rejects_and_returns_handle {α : Type} (jni : JniOracle)
    (componentToJava : JSVal → α) (thenThrows : Bool) (v : JSVal)
    (hp : (v.isObject && v.hasProp "then") = true)
    (ht : (!(v.getProp "then").isFunction || thenThrows) = true)
    (hc : jni.createDeferredFails = false)
    (hj : jni.rejectDeferredFails = false) :
    Deferred.toJava jni componentToJava thenThrows v =
      (.deferredHandle,
        [.createDeferred, .registerThenCallbacks, .callThen,
          .captureJsException, .rejectDeferredWithJsError]) := by
  simp [Deferred.toJava, hc, hp, ht, hj]

/-- Witness for C6 at an object whose `then` is a function but whose
invocation throws. -/
theorem then_raises_rejects_and_returns_handle_witness :
    Deferred.toJava ⟨false, false, false⟩ (fun _ => (0 : Nat)) true
        (.object [("then", .function 3)]) =
      (.deferredHandle,
        [.createDeferred, .registerThenCallbacks, .callThen,
          .captureJsException, .rejectDeferredWithJsError]) :=
  then_raises_rejects_and_returns_handle ⟨false, false, false⟩
    (fun _ => (0 : Nat)) true (.object [("then", .function 3)]) rfl rfl rfl rfl

/-- C9: converting a null host value to script is the identity to JS null
with no other effect: `Deferred::fromJava` on a null deferred handle returns
`JS_NULL` with the engine state (counter and registry) untouched and no
promise constructed, and `Object::fromJava` on a null object returns
`JS_NULL` without performing runtime-type classification. -/
theorem null_host_value_to_js_null (componentTypeId : Nat) (setUpFails : Bool)
    (s : EngineState) :
    Deferred.fromJava componentTypeId setUpFails true s = (.jsNull, s) ∧
    Object.fromJava none = ⟨.jsNull, none, false⟩ :=
  ⟨rfl, rfl⟩

/-- C10: in untyped-object position, every script number converts through the
boxed Double converter regardless of its value (in particular for integral
values, never through Integer or Long), booleans through boxed Boolean,
strings through String, and all remaining objects (functions included)
through the JSON object wrapper — in the QuickJS variant (`Object::toJava`)
and in the Duktape variant (`Object::pop`) alike. -/
theorem untyped_number_uses_boxed_double (q : ℚ) (b : Bool) (str : String)
    (fields : List (String × JSVal)) (fid : Nat) :
    Object.toJava (.number q) = ⟨.delegated .boxedDouble, none⟩ ∧
    (Object.toJava (.number q)).result ≠ .delegated .boxedInteger ∧
    (Object.toJava (.number q)).result ≠ .delegated .boxedLong ∧
    Object.toJava (.bool b) = ⟨.delegated .boxedBoolean, none⟩ ∧
    Object.toJava (.string str) = ⟨.delegated .string, none⟩ ∧
    Object.toJava (.object fields) = ⟨.delegated .jsonObjectWrapper, none⟩ ∧
    Object.toJava (.function fid) = ⟨.delegated .jsonObjectWrapper, none⟩ ∧
    Object.pop (.number q) = ⟨.delegated .boxedDouble, none⟩ ∧
    Object.pop (.boolean b) = ⟨.delegated .boxedBoolean, none⟩ ∧
    Object.pop (.string str) = ⟨.delegated .string, none⟩ ∧
    Object.pop .object = ⟨.delegated .jsonObjectWrapper, none⟩ := by
  refine ⟨rfl, ?_, ?_, rfl, rfl, rfl, rfl, rfl, rfl, rfl, rfl⟩ <;>
    simp [Object.toJava]

/-- C5, amended: within `Deferred::toJava` (deferred creation succeeding) the
fast path — identified by its synchronous `resolveDeferred` — is taken
exactly when the value fails the source's object-with-`then`-property test
(regardless of the property's callability), the callback-registration path is
taken exactly when it passes, the two paths are mutually exclusive, and every
value with a callable `then` takes the callback path. -/
theorem path_selection_exclusive {α : Type} (jni : JniOracle) (C : JSVal → α)
    (thenThrows : Bool) (v : JSVal) (hc : jni.createDeferredFails = false) :
    ((DEvent.registerThenCallbacks ∈ (Deferred.toJava jni C thenThrows v).2) ↔
      (v.isObject && v.hasProp "then") = true) ∧
    ((DEvent.resolveDeferred (C v) ∈ (Deferred.toJava jni C thenThrows v).2) ↔
      (v.isObject && v.hasProp "then") = false) ∧
    ¬(DEvent.registerThenCallbacks ∈ (Deferred.toJava jni C thenThrows v).2 ∧
      DEvent.resolveDeferred (C v) ∈ (Deferred.toJava jni C thenThrows v).2) ∧
    (specHasCallableThen v = true →
      DEvent.registerThenCallbacks ∈ (Deferred.toJava jni C thenThrows v).2) := by
  have hA : (DEvent.registerThenCallbacks ∈ (Deferred.toJava jni C thenThrows v).2) ↔
      (v.isObject && v.hasProp "then") = true := by
    cases hiP : (v.isObject && v.hasProp "then") with
    | false =>
      cases hr : jni.resolveDeferredFails <;> simp [Deferred.toJava, hc, hiP, hr]
    | true =>
      cases hj : jni.rejectDeferredFails <;>
        cases htc : (!(v.getProp "then").isFunction || thenThrows) <;>
          simp [Deferred.toJava, hc, hiP, hj, htc]
  have hB : (DEvent.resolveDeferred (C v) ∈ (Deferred.toJava jni C thenThrows v).2) ↔
      (v.isObject && v.hasProp "then") = false := by
    cases hiP : (v.isObject && v.hasProp "then") with
    | false =>
      cases hr : jni.resolveDeferredFails <;> simp [Deferred.toJava, hc, hiP, hr]
    | true =>
      cases hj : jni.rejectDeferredFails <;>
        cases htc : (!(v.getProp "then").isFunction || thenThrows) <;>
          simp [Deferred.toJava, hc, hiP, hj, htc]
  refine ⟨hA, hB, ?_, ?_⟩
  · rintro ⟨h1, h2⟩
    have ht := hA.mp h1
    rw [hB.mp h2] at ht
    exact absurd ht (by decide)
  · intro hs
    exact hA.mpr (hasCallableThen_implies_hasProp v hs)

/-- Witness for C5's amended theorem at a genuine promise-shaped value: an
object with a callable `then` is sent down the callback-registration path. -/
theorem path_selection_exclusive_witness :
    DEvent.registerThenCallbacks ∈
      (Deferred.toJava ⟨false, false, false⟩ (fun _ => (0 : Nat)) false
        (JSVal.object [("then", JSVal.function 2)])).2 :=
  (path_selection_exclusive ⟨false, false, false⟩ (fun _ => (0 : Nat)) false
      (JSVal.object [("then", JSVal.function 2)]) rfl).2.2.2 rfl

/-- C5, counterexample: the object `{then: 42}` has no callable `then`
capability, yet `Deferred::toJava` does not take the synchronous fast path on
it — the source tests only property existence, so the value goes down the
callback-registration path (where calling the non-function `then` then raises
and rejects the deferred). This refutes "the fast path is taken exactly when
the input value lacks a callable then capability". -/
theorem fast_path_not_iff_callable_then_cex :
    specHasCallableThen (JSVal.object [("then", JSVal.number 42)]) = false ∧
    Deferred.toJava ⟨false, false, false⟩ (fun _ => (0 : Nat)) false
        (JSVal.object [("then", JSVal.number 42)]) =
      (.deferredHandle,
        [.createDeferred, .registerThenCallbacks, .callThen,
          .captureJsException, .rejectDeferredWithJsError]) :=
  ⟨rfl, rfl⟩

/-- If the stash entry found for `id` is already settled, the promise
capability invocation leaves the stash unchanged (ES promise semantics:
settling an already-settled promise is ignored). -/
theorem invokeCapability_of_settled (id : Nat) (f : Bool)
    (l : List (Nat × PromiseObj)) (obj : PromiseObj) (b : Bool)
    (hfind : (l.find? fun p => p.1 == id).map Prod.snd = some obj)
    (hs : obj.settled = some b) :
    invokeCapability id f l = l := by
  induction l with
  | nil => simp at hfind
  | cons hd tl ih =>
    obtain ⟨k, o⟩ := hd
    by_cases hk : k = id
    · rw [List.find?_cons_of_pos _ (by simp [hk])] at hfind
      simp only [Option.map_some', Option.some.injEq] at hfind
      subst hfind
      simp [invokeCapability, hk, hs]
    · rw [List.find?_cons_of_neg _ (by simp [hk])] at hfind
      simp [invokeCapability, hk, ih hfind]

/-- C2, counterexample: create a bridge (`Deferred::fromJava`, bridge id 1)
and complete it once; a second `Deferred::completeJsPromise` with the same id
still finds the never-removed registry entry and invokes the stored resolve
capability again — its event trace is exactly `[invokeCapability true]`, with
no warning logged — refuting "the promise's resolve/reject capability is not
invoked a second time" (the state is unchanged only because the already-
settled promise absorbs the duplicate). -/
theorem duplicate_completion_reinvokes_capability_cex :
    Deferred.completeJsPromise false
        (Deferred.completeJsPromise false
            (Deferred.fromJava 0 false false ⟨0, []⟩).2 1 true).1 1 true =
      ((Deferred.completeJsPromise false
          (Deferred.fromJava 0 false false ⟨0, []⟩).2 1 true).1,
        [CompleteEvent.invokeCapability true]) := rfl

/-- C2, amended: a second invocation of `Deferred::completeJsPromise` with
the id of an already-settled bridge throws no exception and leaves the
registry (entry included) unchanged, but it is not a logged no-op: the entry
is never removed, so the stored resolve/reject capability is invoked again
and the duplicate settlement is absorbed by the already-settled promise;
only an id absent from the registry gives the logged-warning no-op. -/
theorem duplicate_completion_absorbed (capThrows : Bool) (s : EngineState)
    (id : Nat) (isFulfilled b : Bool) (obj : PromiseObj)
    (hfind : (s.globals.find? fun p => p.1 == id).map Prod.snd = some obj)
    (hct : obj.componentType.isSome = true)
    (hslot : (if isFulfilled then obj.resolve else obj.reject).isFunction = true)
    (hsettled : obj.settled = some b) :
    Deferred.completeJsPromise capThrows s id isFulfilled =
      (s, .invokeCapability isFulfilled ::
            if capThrows then [.logCallFailed] else []) := by
  obtain ⟨ct, hcteq⟩ := Option.isSome_iff_exists.mp hct
  unfold Deferred.completeJsPromise
  rw [hfind]
  simp only [hcteq, hslot, if_true]
  rw [invokeCapability_of_settled id isFulfilled s.globals obj b hfind hsettled]

/-- Witness for C2's amended theorem on a concrete settled registry entry. -/
theorem duplicate_completion_absorbed_witness :
    Deferred.completeJsPromise false
        ⟨1, [(1, ⟨some 0, .function 0, .function 1, some true⟩)]⟩ 1 true =
      (⟨1, [(1, ⟨some 0, .function 0, .function 1, some true⟩)]⟩,
        [CompleteEvent.invokeCapability true]) :=
  duplicate_completion_absorbed false
    ⟨1, [(1, ⟨some 0, .function 0, .function 1, some true⟩)]⟩ 1 true true
    ⟨some 0, .function 0, .function 1, some true⟩ rfl rfl rfl rfl

/-- The fields of a stash entry other than the settled state. -/
def entryCore (o : PromiseObj) : Option Nat × JSVal × JSVal :=
  (o.componentType, o.resolve, o.reject)

/-- Invoking a promise capability changes no stash key and no entry field
other than the settled state. -/
theorem invokeCapability_core (id : Nat) (f : Bool) (l : List (Nat × PromiseObj)) :
    (invokeCapability id f l).map (fun p => (p.1, entryCore p.2)) =
      l.map (fun p => (p.1, entryCore p.2)) := by
  induction l with
  | nil => rfl
  | cons hd tl ih =>
    obtain ⟨k, o⟩ := hd
    by_cases hk : k = id
    · by_cases hs : o.settled = none <;> simp [invokeCapability, hk, hs, entryCore, ih]
    · simp [invokeCapability, hk, ih]

/-- C8: `Deferred::completeJsPromise` never removes a registry entry: after
any invocation — id found or not, completion performed or aborted — the
counter is unchanged and every global-name-keyed entry is still present with
the same key, component-type slot, and resolve/reject slots; only the settled
state of the invoked promise may change. -/
theorem completeJsPromise_preserves_registry (capThrows : Bool)
    (s : EngineState) (id : Nat) (isFulfilled : Bool) :
    (Deferred.completeJsPromise capThrows s id isFulfilled).1.promiseCount =
      s.promiseCount ∧
    (Deferred.completeJsPromise capThrows s id isFulfilled).1.globals.map
        (fun p => (p.1, entryCore p.2)) =
      s.globals.map (fun p => (p.1, entryCore p.2)) := by
  unfold Deferred.completeJsPromise
  cases hf : (s.globals.find? fun p => p.1 == id).map Prod.snd with
  | none => simp [hf]
  | some obj =>
    cases hct : obj.componentType with
    | none => simp [hf, hct]
    | some ct =>
      by_cases hslot : (if isFulfilled then obj.resolve else obj.reject).isFunction = true
      · simp [hf, hct, hslot, invokeCapability_core]
      · simp [hf, hct, if_neg hslot]

/-- The raw ids issued from state `s` are `(s.promiseCount + k + 1) % 2^32`
for `k = 0, …, n-1`. -/
theorem idsIssued_eq_map (n : Nat) (s : EngineState) :
    idsIssued n s =
      (List.range n).map fun k => (s.promiseCount + k + 1) % 2 ^ 32 := by
  induction n generalizing s with
  | zero => rfl
  | succ n ih =>
    have hstep : idsIssued (n + 1) s =
        (s.promiseCount + 1) % 2 ^ 32 ::
          idsIssued n ⟨(s.promiseCount + 1) % 2 ^ 32,
            (((s.promiseCount + 1) % 2 ^ 32,
              ⟨some 0, .function 0, .function 1, none⟩) : Nat × PromiseObj) ::
              s.globals⟩ := rfl
    rw [hstep, ih, List.range_succ_eq_map]
    simp only [List.map_cons, List.map_map]
    refine congrArg₂ _ (by ring_nf) ?_
    refine List.map_congr_left fun k _ => ?_
    show ((s.promiseCount + 1) % 2 ^ 32 + k + 1) % 2 ^ 32 =
      (s.promiseCount + (k + 1) + 1) % 2 ^ 32
    rw [Nat.add_assoc ((s.promiseCount + 1) % 2 ^ 32) k 1, Nat.mod_add_mod]
    congr 1
    ring

/-- C7, counterexample: the bridge id counter is a 32-bit `int`; over a
process lifetime of `2^32 + 1` bridge creations the raw counter wraps and
the issued ids are no longer pairwise distinct (the id of the first call
recurs), refuting distinctness "for the process lifetime" — and, entries
never being removed, the recurring id collides with the still-unresolved
bridge registered under it. -/
theorem bridge_ids_repeat_after_wrap_cex :
    ¬ (idsIssued (2 ^ 32 + 1) ⟨0, []⟩).Nodup := by
  intro hnd
  rw [idsIssued_eq_map] at hnd
  have h1 : (0 : ℕ) ∈ List.range (2 ^ 32 + 1) := by
    rw [List.mem_range]; omega
  have h2 : (2 : ℕ) ^ 32 ∈ List.range (2 ^ 32 + 1) := by
    rw [List.mem_range]; omega
  have heq : ((0 : ℕ) + 0 + 1) % 2 ^ 32 = (0 + 2 ^ 32 + 1) % 2 ^ 32 := by decide
  have := List.inj_on_of_nodup_map hnd h1 h2 heq
  exact absurd this (by decide)

/-- C7, amended: starting from a fresh process (counter 0), the raw bridge
ids issued by successive `Deferred::fromJava` calls are pairwise distinct as
long as at most `2^32` bridges are created, and strictly increasing as long
as fewer than `2^32` are; beyond that the 32-bit counter wraps and ids
repeat (see the counterexample). Distinct raw counter values give distinct
global names, decimal rendering being injective. -/
theorem bridge_ids_distinct_before_wrap (n : Nat) (s : EngineState)
    (h0 : s.promiseCount = 0) (hn : n ≤ 2 ^ 32) :
    (idsIssued n s).Nodup ∧
    (n < 2 ^ 32 → (idsIssued n s).Pairwise (· < ·)) := by
  rw [idsIssued_eq_map, h0]
  constructor
  · refine List.Nodup.map_on ?_ (List.nodup_range _)
    intro a ha b hb hab
    rw [List.mem_range] at ha hb
    have h32 : (2 : ℕ) ^ 32 = 4294967296 := by norm_num
    rw [h32] at hab hn
    omega
  · intro hlt
    rw [List.pairwise_map]
    refine List.Pairwise.imp_of_mem ?_ (List.sorted_lt_range n)
    intro a b ha hb hab
    rw [List.mem_range] at ha hb
    have h32 : (2 : ℕ) ^ 32 = 4294967296 := by norm_num
    rw [h32] at hlt
    simp only [h32]
    omega

/-- Witness for C7's amended theorem: three bridge creations from a fresh
process. -/
theorem bridge_ids_distinct_before_wrap_witness :
    (idsIssued 3 ⟨0, []⟩).Nodup ∧
    (3 < 2 ^ 32 → (idsIssued 3 ⟨0, []⟩).Pairwise (· < ·)) :=
  bridge_ids_distinct_before_wrap 3 ⟨0, []⟩ rfl (by decide)

end OasisJsBridge
